import Mathlib

/-!
Shallow embedding of the Dr-HVAC load-calculation and intake-derivation
pipeline.

* `runLoadCalc` embeds `runLoadCalc` from `src/lib/loadCalc.ts`
  (re-exported through `src/app/page.tsx`). JavaScript numbers are modelled
  as exact rationals (`ℚ`), `Math.round` as `jround` (floor of `x + 1/2`,
  which is JavaScript round-half-up), and the `throw` on non-positive
  area as `Except.error`.
* `validateExteriorAnalysis`, `applyAfueFromModelTable`,
  `computeWarrantyInfo` and `analyzeEquipmentFlags` embed the functions of
  the same names from `src/app/api/intake/route.ts`. Optional/nullable
  TypeScript fields become `Option`; JavaScript truthiness tests on them
  are translated literally (`!x` on a nullable number is true for `null`,
  `undefined` and `0`; on a nullable string for `null`, `undefined` and
  `""`). `computeWarrantyInfo` reads the current year from the clock in
  the source; here it is passed as an explicit argument.
-/

namespace DrHvac

/-- JavaScript `Math.round`: round half toward positive infinity. -/
def jround (q : ℚ) : ℤ := ⌊q + 1/2⌋

/-- JavaScript `Number.prototype.toFixed(2)` for the exact (multiple of
1/100) values produced by the tonnage computation. -/
def jsToFixed2 (q : ℚ) : String :=
  let n := (jround (|q| * 100)).toNat
  let intPart := n / 100
  let frac := n % 100
  let fracStr := if frac < 10 then "0" ++ toString frac else toString frac
  let sign := if q < 0 then "-" else ""
  sign ++ toString intPart ++ "." ++ fracStr

/-! ### Load-calc data model (`src/lib/loadCalc.ts`) -/

inductive WindowAmount
  | few | average | many | unknown
deriving DecidableEq

inductive InsulationLevel
  | poor | average | good
deriving DecidableEq

inductive Orientation
  | north | south | east | west | mixed | unknown
deriving DecidableEq

inductive SidingType
  | vinyl | wood | fiberCement | stucco | brick | mixed | unknown
deriving DecidableEq

structure LoadCalcInput where
  sqft : ℚ
  stories : ℚ
  windows : WindowAmount
  orientation : Orientation
  insulation : InsulationLevel
  siding : SidingType
  designDeltaT : ℚ
  indoorRH : ℚ
  ductsInAtticOrCrawl : Bool
deriving DecidableEq

structure LoadCalcResult where
  sensibleBTUH : ℤ
  latentBTUH : ℤ
  totalBTUH : ℤ
  recommendedTonnage : ℚ
  notes : List String
deriving DecidableEq

/-! Factor tables and their notes, one definition per `switch` block of
`runLoadCalc`; a factor's note list is what that block pushes onto
`notes`. -/

def insulationFactor : InsulationLevel → ℚ
  | .good => 0.85
  | .average => 1
  | .poor => 1.2

def insulationNotes : InsulationLevel → List String
  | .good => ["Good insulation: slightly reduced load."]
  | .average => []
  | .poor => ["Poor insulation: increased envelope load."]

def windowFactor : WindowAmount → ℚ
  | .few => 0.9
  | .average => 1
  | .many => 1.15
  | .unknown => 1

def windowNotes : WindowAmount → List String
  | .few => ["Few windows: reduced gain/loss."]
  | .average => []
  | .many => ["Many windows: increased gain/loss."]
  | .unknown => ["Window amount unknown: assuming average."]

def orientationFactor : Orientation → ℚ
  | .south | .west => 1.1
  | .north => 0.95
  | .east => 1.05
  | .mixed | .unknown => 1

def orientationNotes : Orientation → List String
  | .south | .west => ["South/West orientation: higher solar gain."]
  | .north => ["North orientation: slightly lower solar gain."]
  | .east => []
  | .mixed | .unknown => []

def storiesFactor (stories : ℚ) : ℚ :=
  if 2 ≤ stories then 1.08 else 1

/-- The stack-effect note pushed when `stories >= 2`. -/
def stackNote : String :=
  "Multi-story: extra load for stack effect and envelope area."

def storiesNotes (stories : ℚ) : List String :=
  if 2 ≤ stories then [stackNote] else []

def sidingFactor : SidingType → ℚ
  | .brick => 0.97
  | .stucco => 0.99
  | .fiberCement | .wood | .vinyl | .mixed | .unknown => 1

def ductFactor (ductsInAtticOrCrawl : Bool) : ℚ :=
  if ductsInAtticOrCrawl then 1.1 else 1

def ductNotes (ductsInAtticOrCrawl : Bool) : List String :=
  if ductsInAtticOrCrawl then
    ["Ducts in unconditioned space: 10% penalty added."]
  else []

def latentRatio (indoorRH : ℚ) : ℚ :=
  if indoorRH ≤ 35 then 0.15
  else if 55 ≤ indoorRH then 0.25
  else 0.2

/-- The un-rounded sensible load `sensiblePerSqFt * sqft` of
`runLoadCalc`. -/
def rawSensible (input : LoadCalcInput) : ℚ :=
  10 * (input.designDeltaT / 30) *
    insulationFactor input.insulation *
    windowFactor input.windows *
    orientationFactor input.orientation *
    storiesFactor input.stories *
    sidingFactor input.siding *
    ductFactor input.ductsInAtticOrCrawl *
    input.sqft

/-- The un-rounded latent load `sensibleBTUH * latentRatio` of
`runLoadCalc`. -/
def rawLatent (input : LoadCalcInput) : ℚ :=
  rawSensible input * latentRatio input.indoorRH

/-- Final summary note of `runLoadCalc` (template literal at the end of
the function). -/
def mkSummaryNote (total : ℤ) (tons : ℚ) : String :=
  "Based on the inputs, total design load is ~" ++ toString total ++
    " BTU/h, which is roughly " ++ jsToFixed2 tons ++ " tons."

/-- The result record built by the success path of `runLoadCalc`:
`totalBTUH` is the un-rounded `sensibleBTUH + latentBTUH`, each output
field rounds its own raw value, and `recommendedTonnage` is
`Math.round(rawTonnage * 4) / 4`. -/
def calcResult (input : LoadCalcInput) : LoadCalcResult :=
  let sensibleBTUH := rawSensible input
  let latentBTUH := rawLatent input
  let totalBTUH := sensibleBTUH + latentBTUH
  let rawTonnage := totalBTUH / 12000
  let recommendedTonnage := (jround (rawTonnage * 4) : ℚ) / 4
  { sensibleBTUH := jround sensibleBTUH
    latentBTUH := jround latentBTUH
    totalBTUH := jround totalBTUH
    recommendedTonnage := recommendedTonnage
    notes :=
      insulationNotes input.insulation ++
      windowNotes input.windows ++
      orientationNotes input.orientation ++
      storiesNotes input.stories ++
      ductNotes input.ductsInAtticOrCrawl ++
      [mkSummaryNote (jround totalBTUH) recommendedTonnage] }

/-- `runLoadCalc` from `src/lib/loadCalc.ts`. -/
def runLoadCalc (input : LoadCalcInput) : Except String LoadCalcResult :=
  if input.sqft ≤ 0 then Except.error "sqft must be > 0"
  else Except.ok (calcResult input)

/-- Sensible-load projection of an estimator outcome. -/
def resSensible (x : Except String LoadCalcResult) : Option ℤ :=
  x.toOption.map (·.sensibleBTUH)

/-- Latent-load projection of an estimator outcome. -/
def resLatent (x : Except String LoadCalcResult) : Option ℤ :=
  x.toOption.map (·.latentBTUH)

/-- Total-load projection of an estimator outcome. -/
def resTotal (x : Except String LoadCalcResult) : Option ℤ :=
  x.toOption.map (·.totalBTUH)

/-- Tonnage projection of an estimator outcome. -/
def resTonnage (x : Except String LoadCalcResult) : Option ℚ :=
  x.toOption.map (·.recommendedTonnage)

/-! ### Exterior validation (`src/app/api/intake/route.ts`) -/

/-- The `stories` field of `ExteriorAnalysis` is typed `number | string`
in the source and the validator additionally tests it against `null` and
`undefined`: `none` models null/undefined, `Sum.inl` a number, `Sum.inr`
a string. -/
structure ExteriorAnalysis where
  stories : Option (ℚ ⊕ String)
  siding : String
  windows : String
  gutters : String
  condition : String
  confidence : Option ℚ
deriving DecidableEq

structure ValidationResult where
  issues : List String
  needsClarification : Bool
deriving DecidableEq

def reuploadIssue : String :=
  "I couldn’t confidently read this photo. Please upload a clearer exterior shot (front of the house)."

def lowConfidenceIssue : String :=
  "Overall confidence is low. Please confirm a few key details (stories, siding type, and approximate window amount)."

def storiesIssue : String :=
  "I couldn’t determine the number of stories. Please select: 1, 1.5, 2, or 3 stories."

def windowsIssue : String :=
  "I couldn’t clearly estimate window amount. Please choose: few, average, or many windows."

def sidingIssue : String :=
  "Siding type is unclear. Please choose the closest match: vinyl, wood, fiber cement, stucco, brick, or mixed."

/-- Check `analysis.stories === "unknown" || === null || === undefined`. -/
def storiesUnknownCheck (a : ExteriorAnalysis) : Bool :=
  a.stories == some (Sum.inr "unknown") || a.stories == none

/-- Check `analysis.windows === "unknown" || === "" || === "unclear"`. -/
def windowsUnknownCheck (a : ExteriorAnalysis) : Bool :=
  a.windows == "unknown" || a.windows == "" || a.windows == "unclear"

/-- Check `analysis.siding === "unknown" || === ""`. -/
def sidingUnknownCheck (a : ExteriorAnalysis) : Bool :=
  a.siding == "unknown" || a.siding == ""

/-- `validateExteriorAnalysis` from `src/app/api/intake/route.ts`. -/
def validateExteriorAnalysis (analysis : Option ExteriorAnalysis) :
    ValidationResult :=
  match analysis with
  | none => { issues := [reuploadIssue], needsClarification := true }
  | some a =>
    let confidence := a.confidence.getD 0
    let issues :=
      (if confidence < 0.75 then [lowConfidenceIssue] else []) ++
      (if storiesUnknownCheck a then [storiesIssue] else []) ++
      (if windowsUnknownCheck a then [windowsIssue] else []) ++
      (if sidingUnknownCheck a then [sidingIssue] else [])
    { issues := issues, needsClarification := decide (issues.length > 0) }

/-! ### Equipment enrichment (`src/app/api/intake/route.ts`) -/

structure EquipmentAnalysis where
  equipmentType : String
  manufacturer : String
  modelNumber : String
  serialNumber : String
  nominalTonnage : Option ℚ
  inputBTUH : Option ℚ
  outputBTUH : Option ℚ
  seer : Option ℚ
  seer2 : Option ℚ
  hspf : Option ℚ
  hspf2 : Option ℚ
  afue : Option ℚ
  refrigerant : Option String
  heatStripKW : Option ℚ
  manufactureYear : Option ℤ
  stages : Option String
  ventType : Option String
  afueSource : Option String
deriving DecidableEq

inductive WarrantyStatus
  | likely_in_parts_warranty | likely_out_of_warranty | unknown
deriving DecidableEq

structure WarrantyInfo where
  manufactureYear : Option ℤ
  approxAgeYears : Option ℤ
  likelyWarrantyStatus : WarrantyStatus
deriving DecidableEq

structure EquipmentFlags where
  afueVentMismatch : Bool
  notes : List String
deriving DecidableEq

/-- `AFUE_MODEL_TABLE`: static model-number → AFUE lookup. -/
def AFUE_MODEL_TABLE (key : String) : Option ℚ :=
  if key = "AUD2B080A9V3VBA" then some 80
  else if key = "GMH950703BX" then some 95
  else none

/-- `applyAfueFromModelTable` from `src/app/api/intake/route.ts`.
`modelNumber` is a non-nullable string in the source interface, so the
`?? ""` in the source is the identity; `!rawModel` is true exactly for
the empty string. -/
def applyAfueFromModelTable (equipment : Option EquipmentAnalysis) :
    Option EquipmentAnalysis :=
  match equipment with
  | none => none
  | some eq =>
    if eq.afue ≠ none then some eq
    else
      let rawModel := eq.modelNumber
      if rawModel = "" then some eq
      else
        let key := rawModel.trim.toUpper
        match AFUE_MODEL_TABLE key with
        | some tableAfue =>
          some { eq with
                 afue := some tableAfue
                 afueSource :=
                   match eq.afueSource with
                   | some s => if s ≠ "" ∧ s ≠ "unknown" then some s
                               else some "model_lookup"
                   | none => some "model_lookup" }
        | none => some eq

/-- `computeWarrantyInfo` from `src/app/api/intake/route.ts`. The source
reads the current year from the system clock; it is an explicit argument
here. `!equipment.manufactureYear` is JavaScript-truthy for `null`,
`undefined` and `0`. -/
def computeWarrantyInfo (currentYear : ℤ)
    (equipment : Option EquipmentAnalysis) : WarrantyInfo :=
  match equipment with
  | none =>
    { manufactureYear := none, approxAgeYears := none
      likelyWarrantyStatus := .unknown }
  | some eq =>
    match eq.manufactureYear with
    | none =>
      { manufactureYear := none, approxAgeYears := none
        likelyWarrantyStatus := .unknown }
    | some y =>
      if y = 0 then
        { manufactureYear := none, approxAgeYears := none
          likelyWarrantyStatus := .unknown }
      else
        let age := currentYear - y
        if age ≤ 10 then
          { manufactureYear := some y, approxAgeYears := some age
            likelyWarrantyStatus := .likely_in_parts_warranty }
        else
          { manufactureYear := some y, approxAgeYears := some age
            likelyWarrantyStatus := .likely_out_of_warranty }

def mismatchNote : String :=
  "AI/model lookup says 90%+ AFUE, but venting appears to be metal/B-vent only. This often indicates an 80% furnace. Please confirm AFUE manually."

def pvcNote : String :=
  "Venting appears to be PVC, which often indicates a 90%+ condensing furnace. Confirm AFUE from the rating plate."

/-- Condition of the first `if` of `analyzeEquipmentFlags`:
`afue !== null && afue >= 90 && ventType === "metal_flue"` (with
`ventType = equipment.ventType ?? "unknown"`). -/
def mismatchFires (eq : EquipmentAnalysis) : Bool :=
  (match eq.afue with
   | some a => decide (90 ≤ a)
   | none => false) && (eq.ventType.getD "unknown" == "metal_flue")

/-- Condition of the second `if` of `analyzeEquipmentFlags`:
`afue === null && ventType === "pvc"`. -/
def pvcFires (eq : EquipmentAnalysis) : Bool :=
  (eq.afue == none) && (eq.ventType.getD "unknown" == "pvc")

/-- `analyzeEquipmentFlags` from `src/app/api/intake/route.ts`. -/
def analyzeEquipmentFlags (equipment : Option EquipmentAnalysis) :
    Option EquipmentFlags :=
  match equipment with
  | none => none
  | some eq =>
    let afueVentMismatch := mismatchFires eq
    let notes :=
      (if mismatchFires eq then [mismatchNote] else []) ++
      (if pvcFires eq then [pvcNote] else [])
    if !afueVentMismatch && notes.isEmpty then
      some { afueVentMismatch := false, notes := [] }
    else
      some { afueVentMismatch := afueVentMismatch, notes := notes }

/-! ### Concrete inputs used by the acceptance tests and counterexamples -/

/-- The §8 acceptance-test estimator input. -/
def c2input : LoadCalcInput :=
  { sqft := 2200, stories := 2, windows := .many, orientation := .south
    insulation := .average, siding := .vinyl, designDeltaT := 40
    indoorRH := 45, ductsInAtticOrCrawl := true }

/-- A neutral-factor input with `sqft = 31.25` and `designDeltaT = 30`,
giving a raw sensible load of 312.5 and a raw latent load of 62.5. -/
def c1input : LoadCalcInput :=
  { sqft := 125/4, stories := 1, windows := .average, orientation := .mixed
    insulation := .average, siding := .vinyl, designDeltaT := 30
    indoorRH := 45, ductsInAtticOrCrawl := false }

def zeroAreaInput : LoadCalcInput := { c2input with sqft := 0 }

def negAreaInput : LoadCalcInput := { c2input with sqft := -50 }

def midStoriesInput : LoadCalcInput := { c2input with stories := 3/2 }

/-- An exterior record with high confidence and no unknown fields. -/
def clearExterior : ExteriorAnalysis :=
  { stories := some (Sum.inl 2), siding := "vinyl", windows := "average"
    gutters := "yes", condition := "average", confidence := some 0.8 }

/-- An equipment record with every nullable field null and the sentinel
strings of the route handler's default fill. -/
def blankEquipment : EquipmentAnalysis :=
  { equipmentType := "furnace", manufacturer := "unknown"
    modelNumber := "unknown", serialNumber := "unknown"
    nominalTonnage := none, inputBTUH := none, outputBTUH := none
    seer := none, seer2 := none, hspf := none, hspf2 := none, afue := none
    refrigerant := none, heatStripKW := none, manufactureYear := none
    stages := some "unknown", ventType := some "unknown"
    afueSource := some "unknown" }

def labeledAfueEquipment : EquipmentAnalysis :=
  { blankEquipment with afue := some 80, afueSource := some "label" }

def yearZeroEquipment : EquipmentAnalysis :=
  { blankEquipment with manufactureYear := some 0 }

def year2015Equipment : EquipmentAnalysis :=
  { blankEquipment with manufactureYear := some 2015 }

def year2014Equipment : EquipmentAnalysis :=
  { blankEquipment with manufactureYear := some 2014 }

/-! ### Helper lemmas -/

theorem jround_add_le (a b : ℚ) : jround (a + b) ≤ jround a + jround b + 1 := by
  have ha : a + 1/2 < jround a + 1 := Int.lt_floor_add_one _
  have hb : b + 1/2 < jround b + 1 := Int.lt_floor_add_one _
  have hq : a + b + 1/2 < ((jround a + jround b + 2 : ℤ) : ℚ) := by
    push_cast
    linarith
  have := Int.floor_lt.mpr hq
  unfold jround at *
  omega

theorem le_jround_add (a b : ℚ) : jround a + jround b - 1 ≤ jround (a + b) := by
  have ha : ((jround a : ℤ) : ℚ) ≤ a + 1/2 := Int.floor_le _
  have hb : ((jround b : ℤ) : ℚ) ≤ b + 1/2 := Int.floor_le _
  have hq : ((jround a + jround b - 1 : ℤ) : ℚ) ≤ a + b + 1/2 := by
    push_cast
    linarith
  exact Int.le_floor.mpr hq

theorem stackNote_ne_summary (total : ℤ) (tons : ℚ) :
    stackNote ≠ mkSummaryNote total tons := by
  intro h
  have hd : stackNote.data.head? = (mkSummaryNote total tons).data.head? :=
    congrArg (fun s => s.data.head?) h
  have h1 : stackNote.data.head? = some 'M' := rfl
  have h2 : (mkSummaryNote total tons).data.head? = some 'B' := rfl
  rw [h1, h2] at hd
  simp at hd

theorem stackNote_mem_calcResult (input : LoadCalcInput) :
    stackNote ∈ (calcResult input).notes ↔ 2 ≤ input.stories := by
  have h1 : stackNote ∉ insulationNotes input.insulation := by
    cases input.insulation <;> simp [insulationNotes, stackNote]
  have h2 : stackNote ∉ windowNotes input.windows := by
    cases input.windows <;> simp [windowNotes, stackNote]
  have h3 : stackNote ∉ orientationNotes input.orientation := by
    cases input.orientation <;> simp [orientationNotes, stackNote]
  have h4 : stackNote ∉ ductNotes input.ductsInAtticOrCrawl := by
    cases input.ductsInAtticOrCrawl <;> simp [ductNotes, stackNote]
  have h5 : ∀ t f, stackNote ∉ [mkSummaryNote t f] := by
    intro t f
    simpa using stackNote_ne_summary t f
  have h6 : stackNote ∈ storiesNotes input.stories ↔ 2 ≤ input.stories := by
    by_cases hs : 2 ≤ input.stories <;> simp [storiesNotes, hs]
  show stackNote ∈
      insulationNotes input.insulation ++ windowNotes input.windows ++
      orientationNotes input.orientation ++ storiesNotes input.stories ++
      ductNotes input.ductsInAtticOrCrawl ++ [mkSummaryNote _ _] ↔
    2 ≤ input.stories
  simp only [List.mem_append, h5 _ _, or_false]
  constructor
  · rintro (((((h | h) | h) | h) | h))
    · exact absurd h h1
    · exact absurd h h2
    · exact absurd h h3
    · exact h6.mp h
    · exact absurd h h4
  · intro h
    exact Or.inl (Or.inr (h6.mpr h))

/-! ### Claim theorems -/

/-- C1, counterexample: at the valid input `c1input` (area 31.25, ΔT 30,
all neutral factors) the code returns `sensibleBTUH = 313`,
`latentBTUH = 63` and `totalBTUH = 375`, but the claim demands
`totalBTUH = 313 + 63 = 376`: the code rounds the un-rounded sum instead
of summing the two already-rounded integers. -/
theorem C1_round_then_sum_counterexample :
    resSensible (runLoadCalc c1input) = some 313 ∧
    resLatent (runLoadCalc c1input) = some 63 ∧
    resTotal (runLoadCalc c1input) = some 375 ∧
    resTotal (runLoadCalc c1input) ≠ some (313 + 63) := by
  refine ⟨?_, ?_, ?_, ?_⟩ <;>
    norm_num [resSensible, resLatent, resTotal, runLoadCalc, calcResult,
      c1input, rawSensible, rawLatent, insulationFactor, windowFactor,
      orientationFactor, storiesFactor, sidingFactor, ductFactor,
      latentRatio, jround, Except.toOption]

/-- C1, amended: for every input with positive conditioned area the
result's `totalBTUH` is the rounding of the un-rounded sensible+latent
sum (not the sum of the two already-rounded components), and it differs
from `sensibleBTUH + latentBTUH` by at most 1. -/
theorem C1_total_rounds_raw_sum (input : LoadCalcInput)
    (h : 0 < input.sqft) :
    ∃ r, runLoadCalc input = Except.ok r ∧
      r.sensibleBTUH = jround (rawSensible input) ∧
      r.latentBTUH = jround (rawLatent input) ∧
      r.totalBTUH = jround (rawSensible input + rawLatent input) ∧
      r.sensibleBTUH + r.latentBTUH - 1 ≤ r.totalBTUH ∧
      r.totalBTUH ≤ r.sensibleBTUH + r.latentBTUH + 1 := by
  refine ⟨calcResult input, ?_, rfl, rfl, rfl, le_jround_add _ _,
    jround_add_le _ _⟩
  simp only [runLoadCalc, if_neg (not_le.mpr h)]

/-- Witness for C1, amended, at the acceptance-test input. -/
theorem C1_total_rounds_raw_sum_witness :
    0 < c2input.sqft ∧
    ∃ r, runLoadCalc c2input = Except.ok r ∧
      r.sensibleBTUH = jround (rawSensible c2input) ∧
      r.latentBTUH = jround (rawLatent c2input) ∧
      r.totalBTUH = jround (rawSensible c2input + rawLatent c2input) ∧
      r.sensibleBTUH + r.latentBTUH - 1 ≤ r.totalBTUH ∧
      r.totalBTUH ≤ r.sensibleBTUH + r.latentBTUH + 1 :=
  ⟨by norm_num [c2input],
   C1_total_rounds_raw_sum c2input (by norm_num [c2input])⟩

/-- C2, counterexample: at the §8 acceptance input the factor chain of
the code yields a per-square-foot sensible rate of 25047/1250 = 20.0376
BTU/h (more than 1 BTU/h above the claimed ≈18.71) and a sensible load
of 44,083 BTU/h, not ≈41,150. -/
theorem C2_spec_numbers_counterexample :
    rawSensible c2input / c2input.sqft = 25047/1250 ∧
    (1871/100 : ℚ) + 1 < rawSensible c2input / c2input.sqft ∧
    resSensible (runLoadCalc c2input) = some 44083 ∧
    resSensible (runLoadCalc c2input) ≠ some 41150 := by
  refine ⟨?_, ?_, ?_, ?_⟩ <;>
    norm_num [resSensible, runLoadCalc, calcResult, c2input, rawSensible,
      rawLatent, insulationFactor, windowFactor, orientationFactor,
      storiesFactor, sidingFactor, ductFactor, latentRatio, jround,
      Except.toOption]

/-- C2, amended: the §8 acceptance input deterministically yields a
per-square-foot sensible rate of 20.0376 BTU/h, sensible load 44,083,
latent load 8,817, total load 52,899 and a recommended capacity of 4.5
tons. -/
theorem C2_acceptance_values :
    rawSensible c2input / c2input.sqft = 25047/1250 ∧
    resSensible (runLoadCalc c2input) = some 44083 ∧
    resLatent (runLoadCalc c2input) = some 8817 ∧
    resTotal (runLoadCalc c2input) = some 52899 ∧
    resTonnage (runLoadCalc c2input) = some (9/2) := by
  refine ⟨?_, ?_, ?_, ?_, ?_⟩ <;>
    norm_num [resSensible, resLatent, resTotal, resTonnage, runLoadCalc,
      calcResult, c2input, rawSensible, rawLatent, insulationFactor,
      windowFactor, orientationFactor, storiesFactor, sidingFactor,
      ductFactor, latentRatio, jround, Except.toOption]

/-- C3: the estimator returns the invalid-input error exactly when the
conditioned area is ≤ 0, and a result for every positive area: the area
check is the only validated precondition. -/
theorem C3_area_is_only_precondition (input : LoadCalcInput) :
    (input.sqft ≤ 0 → runLoadCalc input = Except.error "sqft must be > 0") ∧
    (0 < input.sqft → ∃ r, runLoadCalc input = Except.ok r) := by
  constructor
  · intro h
    simp only [runLoadCalc, if_pos h]
  · intro h
    exact ⟨calcResult input, by simp only [runLoadCalc, if_neg (not_le.mpr h)]⟩

/-- Witness for C3 at area 0, area −50 and the acceptance input. -/
theorem C3_area_is_only_precondition_witness :
    (zeroAreaInput.sqft ≤ 0 ∧
      runLoadCalc zeroAreaInput = Except.error "sqft must be > 0") ∧
    (negAreaInput.sqft ≤ 0 ∧
      runLoadCalc negAreaInput = Except.error "sqft must be > 0") ∧
    (0 < c2input.sqft ∧ ∃ r, runLoadCalc c2input = Except.ok r) :=
  ⟨⟨by norm_num [zeroAreaInput, c2input],
    (C3_area_is_only_precondition zeroAreaInput).1
      (by norm_num [zeroAreaInput, c2input])⟩,
   ⟨by norm_num [negAreaInput, c2input],
    (C3_area_is_only_precondition negAreaInput).1
      (by norm_num [negAreaInput, c2input])⟩,
   ⟨by norm_num [c2input],
    (C3_area_is_only_precondition c2input).2 (by norm_num [c2input])⟩⟩

/-- C9: the ×1.08 stories factor holds exactly when `stories ≥ 2`, the
stack-effect note is in the result's notes exactly when `stories ≥ 2`,
and for `1 < stories < 2` the factor is 1 and no stories note is
emitted. -/
theorem C9_stories_threshold :
    (∀ s : ℚ, storiesFactor s = 1.08 ↔ 2 ≤ s) ∧
    (∀ input : LoadCalcInput, ∀ r, runLoadCalc input = Except.ok r →
      (stackNote ∈ r.notes ↔ 2 ≤ input.stories)) ∧
    (∀ input : LoadCalcInput, 1 < input.stories → input.stories < 2 →
      storiesFactor input.stories = 1 ∧ storiesNotes input.stories = []) := by
  refine ⟨?_, ?_, ?_⟩
  · intro s
    unfold storiesFactor
    by_cases h : 2 ≤ s
    · rw [if_pos h]
      simp [h]
    · rw [if_neg h]
      constructor
      · intro h1
        exact absurd h1 (by norm_num)
      · intro h2
        exact absurd h2 h
  · intro input r hr
    by_cases hs : input.sqft ≤ 0
    · simp only [runLoadCalc, if_pos hs] at hr
      exact absurd hr (by simp)
    · simp only [runLoadCalc, if_neg hs] at hr
      rw [← Except.ok.inj hr]
      exact stackNote_mem_calcResult input
  · intro input h1 h2
    constructor
    · unfold storiesFactor
      rw [if_neg (not_le.mpr h2)]
    · unfold storiesNotes
      rw [if_neg (not_le.mpr h2)]

/-- Witness for C9 at `stories = 1.5` and at the two-story acceptance
input. -/
theorem C9_stories_threshold_witness :
    (storiesFactor midStoriesInput.stories = 1 ∧
      storiesNotes midStoriesInput.stories = []) ∧
    (stackNote ∈ (calcResult c2input).notes ↔ 2 ≤ c2input.stories) := by
  have hok : runLoadCalc c2input = Except.ok (calcResult c2input) := by
    simp only [runLoadCalc]
    rw [if_neg (by norm_num [c2input])]
  exact ⟨C9_stories_threshold.2.2 midStoriesInput
      (by norm_num [midStoriesInput, c2input])
      (by norm_num [midStoriesInput, c2input]),
    C9_stories_threshold.2.1 c2input (calcResult c2input) hok⟩

/-- C4, counterexample: a record with `manufactureYear = 0` has age
2025 − 0 > 10, so the claim demands `likely_out_of_warranty`, but the
code's JavaScript truthiness test `!equipment.manufactureYear` treats 0
like null and returns `unknown`. -/
theorem C4_year_zero_counterexample :
    yearZeroEquipment.manufactureYear = some 0 ∧
    (10 : ℤ) < 2025 - 0 ∧
    computeWarrantyInfo 2025 (some yearZeroEquipment) =
      { manufactureYear := none, approxAgeYears := none
        likelyWarrantyStatus := .unknown } ∧
    (computeWarrantyInfo 2025 (some yearZeroEquipment)).likelyWarrantyStatus ≠
      WarrantyStatus.likely_out_of_warranty := by
  refine ⟨rfl, by norm_num, ?_, ?_⟩ <;>
    simp [computeWarrantyInfo, yearZeroEquipment, blankEquipment]

/-- C4, amended: warranty status is `unknown` when `manufactureYear` is
null or 0; otherwise `age = currentYear − manufactureYear` and the
status is `likely_in_parts_warranty` exactly when `age ≤ 10`, else
`likely_out_of_warranty` — no other thresholds. -/
theorem C4_warranty_thresholds (currentYear : ℤ) (e : EquipmentAnalysis) :
    (e.manufactureYear = none →
      computeWarrantyInfo currentYear (some e) =
        { manufactureYear := none, approxAgeYears := none
          likelyWarrantyStatus := .unknown }) ∧
    (e.manufactureYear = some 0 →
      computeWarrantyInfo currentYear (some e) =
        { manufactureYear := none, approxAgeYears := none
          likelyWarrantyStatus := .unknown }) ∧
    (∀ y : ℤ, e.manufactureYear = some y → y ≠ 0 →
      computeWarrantyInfo currentYear (some e) =
        if currentYear - y ≤ 10 then
          { manufactureYear := some y, approxAgeYears := some (currentYear - y)
            likelyWarrantyStatus := .likely_in_parts_warranty }
        else
          { manufactureYear := some y, approxAgeYears := some (currentYear - y)
            likelyWarrantyStatus := .likely_out_of_warranty }) := by
  refine ⟨?_, ?_, ?_⟩
  · intro h
    simp [computeWarrantyInfo, h]
  · intro h
    simp [computeWarrantyInfo, h]
  · intro y hy hy0
    by_cases hage : currentYear - y ≤ 10 <;>
      simp [computeWarrantyInfo, hy, hy0, hage]

/-- Witness for C4 at ages 10, 11 and a null year, current year 2025. -/
theorem C4_warranty_thresholds_witness :
    computeWarrantyInfo 2025 (some year2015Equipment) =
      { manufactureYear := some 2015, approxAgeYears := some 10
        likelyWarrantyStatus := .likely_in_parts_warranty } ∧
    computeWarrantyInfo 2025 (some year2014Equipment) =
      { manufactureYear := some 2014, approxAgeYears := some 11
        likelyWarrantyStatus := .likely_out_of_warranty } ∧
    computeWarrantyInfo 2025 (some blankEquipment) =
      { manufactureYear := none, approxAgeYears := none
        likelyWarrantyStatus := .unknown } := by
  refine ⟨?_, ?_, (C4_warranty_thresholds 2025 blankEquipment).1 rfl⟩
  · rw [(C4_warranty_thresholds 2025 year2015Equipment).2.2 2015 rfl
        (by norm_num),
      if_pos (by norm_num : (2025 - 2015 : ℤ) ≤ 10)]
    norm_num
  · rw [(C4_warranty_thresholds 2025 year2014Equipment).2.2 2014 rfl
        (by norm_num),
      if_neg (by norm_num : ¬(2025 - 2014 : ℤ) ≤ 10)]
    norm_num

/-- C5: the efficiency backfill passes any record with non-null `afue`
through unchanged, and the backfill is idempotent. -/
theorem C5_backfill_preserves_and_idempotent :
    (∀ e : EquipmentAnalysis, e.afue ≠ none →
      applyAfueFromModelTable (some e) = some e) ∧
    (∀ x : Option EquipmentAnalysis,
      applyAfueFromModelTable (applyAfueFromModelTable x) =
        applyAfueFromModelTable x) := by
  have hpass : ∀ e : EquipmentAnalysis, e.afue ≠ none →
      applyAfueFromModelTable (some e) = some e := by
    intro e h
    simp [applyAfueFromModelTable, h]
  refine ⟨hpass, ?_⟩
  intro x
  match x with
  | none => rfl
  | some e =>
    by_cases h1 : e.afue ≠ none
    · rw [hpass e h1, hpass e h1]
    · push_neg at h1
      by_cases h2 : e.modelNumber = ""
      · have hid : applyAfueFromModelTable (some e) = some e := by
          simp [applyAfueFromModelTable, h1, h2]
        rw [hid, hid]
      · cases htab : AFUE_MODEL_TABLE (e.modelNumber.trim.toUpper) with
        | none =>
          have hid : applyAfueFromModelTable (some e) = some e := by
            simp [applyAfueFromModelTable, h1, h2, htab]
          rw [hid, hid]
        | some v =>
          have hun : applyAfueFromModelTable (some e) =
              some { e with
                     afue := some v
                     afueSource :=
                       match e.afueSource with
                       | some s => if s ≠ "" ∧ s ≠ "unknown" then some s
                                   else some "model_lookup"
                       | none => some "model_lookup" } := by
            simp [applyAfueFromModelTable, h1, h2, htab]
          rw [hun, hpass _ (by simp)]

/-- Witness for C5: a labelled 80% AFUE record passes through, and the
backfill is idempotent on the all-null record. -/
theorem C5_backfill_witness :
    applyAfueFromModelTable (some labeledAfueEquipment) =
      some labeledAfueEquipment ∧
    applyAfueFromModelTable (applyAfueFromModelTable (some blankEquipment)) =
      applyAfueFromModelTable (some blankEquipment) :=
  ⟨C5_backfill_preserves_and_idempotent.1 labeledAfueEquipment
    (by simp [labeledAfueEquipment, blankEquipment]),
   C5_backfill_preserves_and_idempotent.2 (some blankEquipment)⟩

/-- The mismatch condition forces `afue` non-null and the PVC condition
forces `afue` null, so the two `if`s of `analyzeEquipmentFlags` can
never both fire. -/
theorem fires_exclusive (e : EquipmentAnalysis) :
    ¬(mismatchFires e = true ∧ pvcFires e = true) := by
  rintro ⟨hm, hp⟩
  unfold mismatchFires at hm
  unfold pvcFires at hp
  cases hafue : e.afue with
  | none => rw [hafue] at hm; simp at hm
  | some a => rw [hafue] at hp; simp at hp

/-- C6: flag derivation yields nothing for absent equipment; otherwise
it yields at most one note, never both the mismatch note and the PVC
note, and exactly `{afueVentMismatch := false, notes := []}` when
neither condition fires. -/
theorem C6_flags_mutually_exclusive :
    analyzeEquipmentFlags none = none ∧
    (∀ e : EquipmentAnalysis, ¬(mismatchFires e = true ∧ pvcFires e = true)) ∧
    (∀ e : EquipmentAnalysis, ∃ fl,
      analyzeEquipmentFlags (some e) = some fl ∧
      fl.notes.length ≤ 1 ∧
      ¬(mismatchNote ∈ fl.notes ∧ pvcNote ∈ fl.notes) ∧
      (mismatchFires e = false → pvcFires e = false →
        fl = { afueVentMismatch := false, notes := [] })) := by
  refine ⟨rfl, fires_exclusive, ?_⟩
  intro e
  cases hm : mismatchFires e with
  | false =>
    cases hp : pvcFires e with
    | false =>
      refine ⟨⟨false, []⟩, ?_, by simp, by simp, fun _ _ => rfl⟩
      simp [analyzeEquipmentFlags, hm, hp]
    | true =>
      refine ⟨⟨false, [pvcNote]⟩, ?_, by simp, ?_, ?_⟩
      · simp [analyzeEquipmentFlags, hm, hp]
      · rintro ⟨hmem, _⟩
        simp [mismatchNote, pvcNote] at hmem
      · intro _ h2
        exact Bool.noConfusion h2
  | true =>
    cases hp : pvcFires e with
    | false =>
      refine ⟨⟨true, [mismatchNote]⟩, ?_, by simp, ?_, ?_⟩
      · simp [analyzeEquipmentFlags, hm, hp]
      · rintro ⟨_, hmem⟩
        simp [mismatchNote, pvcNote] at hmem
      · intro h1 _
        exact Bool.noConfusion h1
    | true =>
      exact absurd ⟨hm, hp⟩ (fires_exclusive e)

/-- Witness for C6: on the all-null record neither condition fires and
the result is the explicitly constructed empty flag record. -/
theorem C6_flags_witness :
    analyzeEquipmentFlags (some blankEquipment) =
      some { afueVentMismatch := false, notes := [] } := by
  obtain ⟨fl, hfl, _, _, hex⟩ :=
    C6_flags_mutually_exclusive.2.2 blankEquipment
  rw [hfl, hex (by decide) (by decide)]

/-- C7: a present record with confidence ≥ 0.75 and none of the
stories/windows/siding unknown-sentinel checks firing validates cleanly,
and `needsClarification` is true exactly when the issue list is
non-empty. -/
theorem C7_validator_clean_pass :
    (∀ a : ExteriorAnalysis, 0.75 ≤ a.confidence.getD 0 →
      storiesUnknownCheck a = false → windowsUnknownCheck a = false →
      sidingUnknownCheck a = false →
      validateExteriorAnalysis (some a) =
        { issues := [], needsClarification := false }) ∧
    (∀ a : ExteriorAnalysis,
      ((validateExteriorAnalysis (some a)).needsClarification = true ↔
        (validateExteriorAnalysis (some a)).issues ≠ [])) := by
  constructor
  · intro a hconf hs hw hsd
    simp [validateExteriorAnalysis, hs, hw, hsd, not_lt.mpr hconf]
  · intro a
    rw [show (validateExteriorAnalysis (some a)).needsClarification =
        decide ((validateExteriorAnalysis (some a)).issues.length > 0) from rfl,
      decide_eq_true_eq]
    exact List.length_pos

/-- Witness for C7 at a high-confidence fully-known record. -/
theorem C7_validator_witness :
    0.75 ≤ clearExterior.confidence.getD 0 ∧
    validateExteriorAnalysis (some clearExterior) =
      { issues := [], needsClarification := false } := by
  have hc : (0.75 : ℚ) ≤ clearExterior.confidence.getD 0 := by
    norm_num [clearExterior]
  exact ⟨hc, C7_validator_clean_pass.1 clearExterior hc (by decide)
    (by decide) (by decide)⟩

/-- C8: for absent attributes the validator returns exactly the one
re-upload issue and `needsClarification = true`. -/
theorem C8_absent_attrs_single_issue :
    validateExteriorAnalysis none =
      { issues := [reuploadIssue], needsClarification := true } ∧
    (validateExteriorAnalysis none).issues.length = 1 :=
  ⟨rfl, rfl⟩

/-- C10: the backfill changes at most `afue` and `afueSource`: every
other field of the returned record equals the input field, whether or
not the model lookup hits. -/
theorem C10_backfill_frame (e : EquipmentAnalysis) :
    ∃ e', applyAfueFromModelTable (some e) = some e' ∧
      e'.equipmentType = e.equipmentType ∧
      e'.manufacturer = e.manufacturer ∧
      e'.modelNumber = e.modelNumber ∧
      e'.serialNumber = e.serialNumber ∧
      e'.nominalTonnage = e.nominalTonnage ∧
      e'.inputBTUH = e.inputBTUH ∧
      e'.outputBTUH = e.outputBTUH ∧
      e'.seer = e.seer ∧
      e'.seer2 = e.seer2 ∧
      e'.hspf = e.hspf ∧
      e'.hspf2 = e.hspf2 ∧
      e'.refrigerant = e.refrigerant ∧
      e'.heatStripKW = e.heatStripKW ∧
      e'.manufactureYear = e.manufactureYear ∧
      e'.stages = e.stages ∧
      e'.ventType = e.ventType := by
  by_cases h1 : e.afue ≠ none
  · refine ⟨e, by simp [applyAfueFromModelTable, h1], ?_⟩
    and_intros <;> rfl
  · push_neg at h1
    by_cases h2 : e.modelNumber = ""
    · refine ⟨e, by simp [applyAfueFromModelTable, h1, h2], ?_⟩
      and_intros <;> rfl
    · cases htab : AFUE_MODEL_TABLE (e.modelNumber.trim.toUpper) with
      | none =>
        refine ⟨e, by simp [applyAfueFromModelTable, h1, h2, htab], ?_⟩
        and_intros <;> rfl
      | some v =>
        refine ⟨{ e with
                  afue := some v
                  afueSource :=
                    match e.afueSource with
                    | some s => if s ≠ "" ∧ s ≠ "unknown" then some s
                                else some "model_lookup"
                    | none => some "model_lookup" },
          by simp [applyAfueFromModelTable, h1, h2, htab], ?_⟩
        and_intros <;> rfl

end DrHvac
